import Mathlib

/-!
Shallow embedding of `freqtrade/exchange/binance.py` (class `Binance`),
the exchange-specific adapter for stop-loss order placement, order-book
depth snapping, and margin-account pass-through operations.

Prices and amounts are modelled as rationals; the external collaborators
(the precision normalizer `price_to_precision` / `amount_to_precision`,
the ccxt transport `_api`, the configuration flag `dry_run`) are fields
of an explicit environment.  Each operation returns its result together
with an explicit trace of the effects it performed (normalizer calls,
transport calls, log events), so that claims of the form "the transport
collaborator is never invoked" are directly statable.
-/

/-- The most-derived class of a raised ccxt (exchange-library) exception,
as relevant to the catch chain in `Binance.stoploss`.  The real ccxt
hierarchy is: `BaseError` is the root; `ExchangeError < BaseError`;
`InvalidOrder < ExchangeError`; `InsufficientFunds < InvalidOrder`;
`NetworkError < BaseError`; `DDoSProtection < NetworkError`.
`baseError` stands for any other exchange-library failure whose class is
none of the five specific ones. -/
inductive CcxtError
  | insufficientFunds
  | invalidOrder
  | ddosProtection
  | networkError
  | exchangeError
  | baseError
deriving DecidableEq, Repr

/-- Python `isinstance(e, ccxt.InsufficientFunds)`. -/
def is_insufficient_funds : CcxtError → Bool
  | .insufficientFunds => true
  | _ => false

/-- Python `isinstance(e, ccxt.InvalidOrder)`: `InsufficientFunds` is a subclass
of `InvalidOrder`. -/
def is_invalid_order : CcxtError → Bool
  | .insufficientFunds => true
  | .invalidOrder => true
  | _ => false

/-- Python `isinstance(e, ccxt.DDoSProtection)`. -/
def is_ddos_protection : CcxtError → Bool
  | .ddosProtection => true
  | _ => false

/-- Python `isinstance(e, ccxt.NetworkError)`: `DDoSProtection` is a subclass of
`NetworkError`. -/
def is_network_error : CcxtError → Bool
  | .ddosProtection => true
  | .networkError => true
  | _ => false

/-- Python `isinstance(e, ccxt.ExchangeError)`: `InsufficientFunds` and
`InvalidOrder` are subclasses of `ExchangeError`. -/
def is_exchange_error : CcxtError → Bool
  | .insufficientFunds => true
  | .invalidOrder => true
  | .exchangeError => true
  | _ => false

/-- Python `isinstance(e, ccxt.BaseError)`: every ccxt exception derives from
`BaseError`. -/
def is_base_error : CcxtError → Bool
  | _ => true

/-- The freqtrade exception raised out of `Binance.stoploss`
(`freqtrade.exceptions`).  `cause` records the `raise ... from e` chain:
the validation failure at the top of `stoploss` is an
`OperationalException` raised with no underlying ccxt cause, while the
`except ccxt.BaseError` fallback wraps the ccxt error it caught. -/
inductive FtError
  | operationalException (cause : Option CcxtError)
  | insufficientFundsError (cause : CcxtError)
  | invalidOrderException (cause : CcxtError)
  | ddosProtection (cause : CcxtError)
  | temporaryError (cause : CcxtError)
deriving DecidableEq, Repr

/-- The validation failure raised by `Binance.stoploss` before any I/O:
in the source, `raise OperationalException('In stoploss limit order,
stop price should be more than limit price')`, with no ccxt cause. -/
def validationError : FtError := .operationalException none

/-- The spec's error-kind taxonomy: the five transport-failure kinds of
the classification table, plus the Validation kind for the pure
precondition failure raised locally before any I/O. -/
inductive FtKind
  | validation
  | insufficientFunds
  | invalidOrder
  | ddos
  | temporary
  | operational
deriving DecidableEq, Repr

/-- Abstraction of a raised `FtError` to the spec's error kind.  The
Validation kind is the `OperationalException` raised locally with no
ccxt cause; the Operational kind is the `except ccxt.BaseError` fallback
wrapping a ccxt cause. -/
def kindOf : FtError → FtKind
  | .operationalException none => .validation
  | .operationalException (some _) => .operational
  | .insufficientFundsError _ => .insufficientFunds
  | .invalidOrderException _ => .invalidOrder
  | .ddosProtection _ => .ddos
  | .temporaryError _ => .temporary

/-- The `except` chain of `Binance.stoploss`, in source order (most
specific ccxt class first): `ccxt.InsufficientFunds`, then
`ccxt.InvalidOrder`, then `ccxt.DDoSProtection`, then
`(ccxt.NetworkError, ccxt.ExchangeError)`, then `ccxt.BaseError`. -/
def classify_ccxt (e : CcxtError) : FtError :=
  if is_insufficient_funds e then .insufficientFundsError e
  else if is_invalid_order e then .invalidOrderException e
  else if is_ddos_protection e then .ddosProtection e
  else if is_network_error e || is_exchange_error e then .temporaryError e
  else .operationalException (some e)

/-- The classification table as the spec states it: insufficient funds
maps to InsufficientFunds, structurally-invalid order to InvalidOrder,
rate limiting to DDosProtection, generic network or exchange-side error
to Temporary, and any other exchange-library failure to Operational. -/
def spec_error_kind : CcxtError → FtKind
  | .insufficientFunds => .insufficientFunds
  | .invalidOrder => .invalidOrder
  | .ddosProtection => .ddos
  | .networkError => .temporary
  | .exchangeError => .temporary
  | .baseError => .operational

/-- The exchange acknowledgment returned by `self._api.create_order`
(an opaque order dict; only its identity matters here). -/
structure OrderAck where
  orderId : String
deriving DecidableEq, Repr

/-- The request submitted through `self._api.create_order(symbol=pair,
type=ordertype, side='sell', amount=amount, price=rate, params=params)`
where `params` is a copy of `self._params` updated with the normalized
`stopPrice` (modelled as the distinguished `stopPrice` field next to the
copied base params). -/
structure CreateOrderReq where
  symbol : String
  ordertype : String
  side : String
  amount : ℚ
  price : ℚ
  stopPrice : ℚ
  params : List (String × String)
deriving DecidableEq, Repr

/-- Modelled from the spec: the Dry-Run Recorder collaborator
(`Exchange.dry_run_order` in the base class, not part of the source
under review) — "recordSimulatedOrder(pair, type, side, amount, price)
-> DryRunOrder; pure data construction, no I/O". -/
structure DryRunOrder where
  pair : String
  ordertype : String
  side : String
  amount : ℚ
  price : ℚ
deriving DecidableEq, Repr

/-- Modelled from the spec: construction of the simulated order record. -/
def dry_run_order (pair ordertype side : String) (amount price : ℚ) :
    DryRunOrder :=
  { pair := pair, ordertype := ordertype, side := side,
    amount := amount, price := price }

/-- Result of `Binance.stoploss`: either the dry-run record or the live
exchange acknowledgment. -/
inductive OrderResult
  | dry (o : DryRunOrder)
  | live (o : OrderAck)
deriving DecidableEq, Repr

/-- One observable effect performed by an operation: a precision-
normalizer call, a transport call, or a log event. -/
inductive Effect
  | priceToPrecision (pair : String) (p : ℚ)
  | amountToPrecision (pair : String) (a : ℚ)
  | createOrder (req : CreateOrderReq)
  | logInfo (pair : String) (stopPrice rate : ℚ)
  | logWarning (e : CcxtError)
deriving DecidableEq, Repr

def isCreateOrderEffect : Effect → Bool
  | .createOrder _ => true
  | _ => false

/-- The external collaborators and configuration consumed by
`Binance.stoploss`: the precision normalizer, the `dry_run` config flag,
the exchange-specific base `_params`, and the ccxt transport. -/
structure Env where
  price_to_precision : String → ℚ → ℚ
  amount_to_precision : String → ℚ → ℚ
  dry_run : Bool
  base_params : List (String × String)
  create_order : CreateOrderReq → Except CcxtError OrderAck

/-- The `order_types` dict argument of `Binance.stoploss`; the field
models the optional `stoploss_on_exchange_limit_ratio` key read via
`order_types.get(..., 0.99)` (renamed here, same meaning). -/
structure OrderTypes where
  stoploss_on_exchange_limit_pct : Option ℚ
deriving DecidableEq, Repr

/-- Source line 52: `limit_price_pct = order_types.get(..., 0.99)`,
reading the limit-ratio entry of the order-types dict with default
0.99. -/
def limit_price_pct (order_types : OrderTypes) : ℚ :=
  (OrderTypes.stoploss_on_exchange_limit_pct order_types).getD (99 / 100)

/-- Result and effect trace of one `Binance.stoploss` call. -/
structure StoplossOutput where
  result : Except FtError OrderResult
  effects : List Effect
deriving Repr

/-- Embedding of `Binance.stoploss(pair, amount, stop_price, order_types)`: compute
`rate = stop_price * limit_price_pct`, normalize the stop price, raise
the validation `OperationalException` if the normalized stop price is
`<= rate`, return the dry-run record (un-normalized amount, normalized
stop price) when `dry_run` is set, and otherwise normalize amount and
rate, submit the stop-limit sell order through the transport, log on
success, and map any ccxt failure through the `except` chain. -/
def stoploss (env : Env) (pair : String) (amount stop_price : ℚ)
    (order_types : OrderTypes) : StoplossOutput :=
  let rate := stop_price * limit_price_pct order_types
  let ordertype := "stop_loss_limit"
  let stop_price' := env.price_to_precision pair stop_price
  let eff0 := [Effect.priceToPrecision pair stop_price]
  if stop_price' ≤ rate then
    { result := .error validationError, effects := eff0 }
  else if env.dry_run then
    { result := .ok (.dry (dry_run_order pair ordertype "sell" amount stop_price')),
      effects := eff0 }
  else
    let amount' := env.amount_to_precision pair amount
    let rate' := env.price_to_precision pair rate
    let req : CreateOrderReq :=
      { symbol := pair, ordertype := ordertype, side := "sell",
        amount := amount', price := rate', stopPrice := stop_price',
        params := env.base_params }
    let eff1 := eff0 ++ [Effect.amountToPrecision pair amount,
                         Effect.priceToPrecision pair rate,
                         Effect.createOrder req]
    match env.create_order req with
    | .ok order =>
        { result := .ok (.live order),
          effects := eff1 ++ [Effect.logInfo pair stop_price' rate'] }
    | .error e =>
        { result := .error (classify_ccxt e), effects := eff1 }

/-- The retry policy of the spec's classification table: DDosProtection
and Temporary are the retryable kinds; everything else is never
retried. -/
def isRetryableError : FtError → Bool
  | .ddosProtection _ => true
  | .temporaryError _ => true
  | _ => false

/-- Modelled from the spec: the generic transport-level retry wrapper
(`retrier` from `freqtrade.exchange.common`, not part of the source
under review).  It re-invokes the wrapped operation on a retryable
failure up to `retries` additional times and otherwise returns the
outcome unchanged; effect traces of successive attempts concatenate. -/
def retrierRun : Nat → (Unit → StoplossOutput) → StoplossOutput
  | 0, f => f ()
  | n + 1, f =>
      let out := f ()
      match out.result with
      | .error e =>
          if isRetryableError e then
            let out2 := retrierRun n f
            { result := out2.result, effects := out.effects ++ out2.effects }
          else out
      | .ok _ => out

/-- The decorated entry point `@retrier(retries=0) def stoploss(...)`:
the call site disables the generic retry wrapper (zero retries). -/
def stoploss_entry (env : Env) (pair : String) (amount stop_price : ℚ)
    (order_types : OrderTypes) : StoplossOutput :=
  retrierRun 0 (fun _ => stoploss env pair amount stop_price order_types)

/-- An existing stoploss order as seen by `Binance.stoploss_adjust`:
`order['type']` and `float(order['info']['stopPrice'])`. -/
structure CcxtOrder where
  type : String
  info_stopPrice : ℚ
deriving DecidableEq, Repr

/-- Embedding of `Binance.stoploss_adjust(stop_loss, order)`:
`order['type'] == 'stop_loss_limit' and stop_loss >
float(order['info']['stopPrice'])`. -/
def stoploss_adjust (stop_loss : ℚ) (order : CcxtOrder) : Bool :=
  (order.type == "stop_loss_limit") && decide (stop_loss > order.info_stopPrice)

/-- The failure Python raises from `min([])` on an empty candidate list. -/
inductive PyError
  | valueError
deriving DecidableEq, Repr

/-- The depth steps Binance accepts: `limit_range` in
`Binance.fetch_l2_order_book`. -/
def limit_range : List ℤ := [5, 10, 20, 50, 100, 500, 1000]

/-- Python's `min` over a list: smallest element, `ValueError` (here
`none`) on the empty list. -/
def pyMin : List ℤ → Option ℤ
  | [] => none
  | x :: xs => some (xs.foldl min x)

/-- Source line 33: `min(list(filter(lambda x: limit <= x, limit_range)))`. -/
def snap (limit : ℤ) : Option ℤ :=
  pyMin (limit_range.filter (fun x => limit ≤ x))

/-- Result and forwarded base-class calls of one
`Binance.fetch_l2_order_book` call; `α` is the order book returned by
the (abstract) base implementation. -/
structure L2Output (α : Type) where
  result : Except PyError α
  superCalls : List (String × ℤ)

/-- Embedding of `Binance.fetch_l2_order_book(pair, limit)`: snap the requested limit
to the next-higher step of `limit_range` and forward to the base
implementation; `min` of an empty filter result raises before any
request is made. -/
def fetch_l2_order_book {α : Type} (superFetch : String → ℤ → α)
    (pair : String) (limit : ℤ) : L2Output α :=
  match snap limit with
  | none => { result := .error .valueError, superCalls := [] }
  | some l => { result := .ok (superFetch pair l), superCalls := [(pair, l)] }

/-- Request dict of `Binance.query_max_borrow`. -/
structure MaxBorrowReq where
  asset : String
  isolatedSymbol : String
deriving DecidableEq, Repr

/-- Request dict of `Binance.isolated_margin_transfer`. -/
structure MarginTransferReq where
  asset : String
  symbol : String
  transFrom : String
  transTo : String
  amount : ℚ
deriving DecidableEq, Repr

/-- Request dict of `Binance.create_isolated_margin_account`. -/
structure MarginCreateReq where
  base : String
  quote : String
deriving DecidableEq, Repr

/-- Embedding of `Binance.query_max_borrow(asset, isolatedSymbol)`: submit the fixed
request; on any `ccxt.BaseError`, log one warning and return `None`
(the function body falls off the end). -/
def query_max_borrow {α : Type} (api : MaxBorrowReq → Except CcxtError α)
    (asset isolatedSymbol : String) : Option α × List Effect :=
  match api { asset := asset, isolatedSymbol := isolatedSymbol } with
  | .ok r => (some r, [])
  | .error e => (none, [Effect.logWarning e])

/-- Embedding of `Binance.get_isolated_margin_account()`: same log-and-swallow shape,
no request payload. -/
def get_isolated_margin_account {α : Type}
    (api : Unit → Except CcxtError α) : Option α × List Effect :=
  match api () with
  | .ok r => (some r, [])
  | .error e => (none, [Effect.logWarning e])

/-- Embedding of `Binance.create_isolated_margin_account(base, quote)`. -/
def create_isolated_margin_account {α : Type}
    (api : MarginCreateReq → Except CcxtError α) (base quote : String) :
    Option α × List Effect :=
  match api { base := base, quote := quote } with
  | .ok r => (some r, [])
  | .error e => (none, [Effect.logWarning e])

/-- Embedding of `Binance.isolated_margin_transfer(asset, symbol, transFrom, transTo,
amount)`. -/
def isolated_margin_transfer {α : Type}
    (api : MarginTransferReq → Except CcxtError α)
    (asset symbol transFrom transTo : String) (amount : ℚ) :
    Option α × List Effect :=
  match api { asset := asset, symbol := symbol, transFrom := transFrom,
              transTo := transTo, amount := amount } with
  | .ok r => (some r, [])
  | .error e => (none, [Effect.logWarning e])

/-- Helper: `snap` evaluated on every interval of requested limits. -/
theorem snap_cases (l : ℤ) :
    snap l =
      if l ≤ 5 then some 5 else if l ≤ 10 then some 10
      else if l ≤ 20 then some 20 else if l ≤ 50 then some 50
      else if l ≤ 100 then some 100 else if l ≤ 500 then some 500
      else if l ≤ 1000 then some 1000 else none := by
  rcases le_or_lt l 5 with h | h5
  · rw [if_pos h]
    simp only [snap, limit_range, List.filter,
      decide_eq_true (show l ≤ (5:ℤ) from h),
      decide_eq_true (show l ≤ (10:ℤ) by omega),
      decide_eq_true (show l ≤ (20:ℤ) by omega),
      decide_eq_true (show l ≤ (50:ℤ) by omega),
      decide_eq_true (show l ≤ (100:ℤ) by omega),
      decide_eq_true (show l ≤ (500:ℤ) by omega),
      decide_eq_true (show l ≤ (1000:ℤ) by omega)]
    decide
  rcases le_or_lt l 10 with h | h10
  · rw [if_neg (by omega), if_pos h]
    simp only [snap, limit_range, List.filter,
      decide_eq_false (show ¬ l ≤ (5:ℤ) by omega),
      decide_eq_true (show l ≤ (10:ℤ) from h),
      decide_eq_true (show l ≤ (20:ℤ) by omega),
      decide_eq_true (show l ≤ (50:ℤ) by omega),
      decide_eq_true (show l ≤ (100:ℤ) by omega),
      decide_eq_true (show l ≤ (500:ℤ) by omega),
      decide_eq_true (show l ≤ (1000:ℤ) by omega)]
    decide
  rcases le_or_lt l 20 with h | h20
  · rw [if_neg (by omega), if_neg (by omega), if_pos h]
    simp only [snap, limit_range, List.filter,
      decide_eq_false (show ¬ l ≤ (5:ℤ) by omega),
      decide_eq_false (show ¬ l ≤ (10:ℤ) by omega),
      decide_eq_true (show l ≤ (20:ℤ) from h),
      decide_eq_true (show l ≤ (50:ℤ) by omega),
      decide_eq_true (show l ≤ (100:ℤ) by omega),
      decide_eq_true (show l ≤ (500:ℤ) by omega),
      decide_eq_true (show l ≤ (1000:ℤ) by omega)]
    decide
  rcases le_or_lt l 50 with h | h50
  · rw [if_neg (by omega), if_neg (by omega), if_neg (by omega), if_pos h]
    simp only [snap, limit_range, List.filter,
      decide_eq_false (show ¬ l ≤ (5:ℤ) by omega),
      decide_eq_false (show ¬ l ≤ (10:ℤ) by omega),
      decide_eq_false (show ¬ l ≤ (20:ℤ) by omega),
      decide_eq_true (show l ≤ (50:ℤ) from h),
      decide_eq_true (show l ≤ (100:ℤ) by omega),
      decide_eq_true (show l ≤ (500:ℤ) by omega),
      decide_eq_true (show l ≤ (1000:ℤ) by omega)]
    decide
  rcases le_or_lt l 100 with h | h100
  · rw [if_neg (by omega), if_neg (by omega), if_neg (by omega), if_neg (by omega), if_pos h]
    simp only [snap, limit_range, List.filter,
      decide_eq_false (show ¬ l ≤ (5:ℤ) by omega),
      decide_eq_false (show ¬ l ≤ (10:ℤ) by omega),
      decide_eq_false (show ¬ l ≤ (20:ℤ) by omega),
      decide_eq_false (show ¬ l ≤ (50:ℤ) by omega),
      decide_eq_true (show l ≤ (100:ℤ) from h),
      decide_eq_true (show l ≤ (500:ℤ) by omega),
      decide_eq_true (show l ≤ (1000:ℤ) by omega)]
    decide
  rcases le_or_lt l 500 with h | h500
  · rw [if_neg (by omega), if_neg (by omega), if_neg (by omega), if_neg (by omega),
      if_neg (by omega), if_pos h]
    simp only [snap, limit_range, List.filter,
      decide_eq_false (show ¬ l ≤ (5:ℤ) by omega),
      decide_eq_false (show ¬ l ≤ (10:ℤ) by omega),
      decide_eq_false (show ¬ l ≤ (20:ℤ) by omega),
      decide_eq_false (show ¬ l ≤ (50:ℤ) by omega),
      decide_eq_false (show ¬ l ≤ (100:ℤ) by omega),
      decide_eq_true (show l ≤ (500:ℤ) from h),
      decide_eq_true (show l ≤ (1000:ℤ) by omega)]
    decide
  rcases le_or_lt l 1000 with h | h1000
  · rw [if_neg (by omega), if_neg (by omega), if_neg (by omega), if_neg (by omega),
      if_neg (by omega), if_neg (by omega), if_pos h]
    simp only [snap, limit_range, List.filter,
      decide_eq_false (show ¬ l ≤ (5:ℤ) by omega),
      decide_eq_false (show ¬ l ≤ (10:ℤ) by omega),
      decide_eq_false (show ¬ l ≤ (20:ℤ) by omega),
      decide_eq_false (show ¬ l ≤ (50:ℤ) by omega),
      decide_eq_false (show ¬ l ≤ (100:ℤ) by omega),
      decide_eq_false (show ¬ l ≤ (500:ℤ) by omega),
      decide_eq_true (show l ≤ (1000:ℤ) from h)]
    decide
  · rw [if_neg (by omega), if_neg (by omega), if_neg (by omega), if_neg (by omega),
      if_neg (by omega), if_neg (by omega), if_neg (by omega)]
    simp only [snap, limit_range, List.filter,
      decide_eq_false (show ¬ l ≤ (5:ℤ) by omega),
      decide_eq_false (show ¬ l ≤ (10:ℤ) by omega),
      decide_eq_false (show ¬ l ≤ (20:ℤ) by omega),
      decide_eq_false (show ¬ l ≤ (50:ℤ) by omega),
      decide_eq_false (show ¬ l ≤ (100:ℤ) by omega),
      decide_eq_false (show ¬ l ≤ (500:ℤ) by omega),
      decide_eq_false (show ¬ l ≤ (1000:ℤ) by omega)]
    rfl

/-- Helper: the elements of `limit_range`, enumerated. -/
theorem mem_limit_range_cases (x : ℤ) (hx : x ∈ limit_range) :
    x = 5 ∨ x = 10 ∨ x = 20 ∨ x = 50 ∨ x = 100 ∨ x = 500 ∨ x = 1000 := by
  simpa [limit_range] using hx

/-- Claim C10: for every requested order-book depth limit at most 1000,
`fetch_l2_order_book` forwards to the base implementation the smallest
element of `[5, 10, 20, 50, 100, 500, 1000]` that is at least the
requested limit; for any requested limit above 1000 the operation fails
(Python `min` of an empty candidate list) before any request is made. -/
theorem fetch_l2_order_book_snaps_limit {α : Type} (superFetch : String → ℤ → α)
    (pair : String) (limit : ℤ) :
    (limit ≤ 1000 →
      ∃ m, snap limit = some m ∧ m ∈ limit_range ∧ limit ≤ m ∧
        (∀ x ∈ limit_range, limit ≤ x → m ≤ x) ∧
        fetch_l2_order_book superFetch pair limit =
          { result := .ok (superFetch pair m), superCalls := [(pair, m)] })
    ∧ (1000 < limit →
        fetch_l2_order_book superFetch pair limit =
          { result := .error .valueError, superCalls := [] }) := by
  constructor
  · intro htop
    rcases le_or_lt limit 5 with h | h5
    · have hs : snap limit = some 5 := by rw [snap_cases, if_pos h]
      exact ⟨5, hs, by decide, h,
        fun x hx hlx => by
          rcases mem_limit_range_cases x hx with rfl|rfl|rfl|rfl|rfl|rfl|rfl <;> omega,
        by simp [fetch_l2_order_book, hs]⟩
    rcases le_or_lt limit 10 with h | h10
    · have hs : snap limit = some 10 := by
        rw [snap_cases, if_neg (by omega), if_pos h]
      exact ⟨10, hs, by decide, h,
        fun x hx hlx => by
          rcases mem_limit_range_cases x hx with rfl|rfl|rfl|rfl|rfl|rfl|rfl <;> omega,
        by simp [fetch_l2_order_book, hs]⟩
    rcases le_or_lt limit 20 with h | h20
    · have hs : snap limit = some 20 := by
        rw [snap_cases, if_neg (by omega), if_neg (by omega), if_pos h]
      exact ⟨20, hs, by decide, h,
        fun x hx hlx => by
          rcases mem_limit_range_cases x hx with rfl|rfl|rfl|rfl|rfl|rfl|rfl <;> omega,
        by simp [fetch_l2_order_book, hs]⟩
    rcases le_or_lt limit 50 with h | h50
    · have hs : snap limit = some 50 := by
        rw [snap_cases, if_neg (by omega), if_neg (by omega), if_neg (by omega), if_pos h]
      exact ⟨50, hs, by decide, h,
        fun x hx hlx => by
          rcases mem_limit_range_cases x hx with rfl|rfl|rfl|rfl|rfl|rfl|rfl <;> omega,
        by simp [fetch_l2_order_book, hs]⟩
    rcases le_or_lt limit 100 with h | h100
    · have hs : snap limit = some 100 := by
        rw [snap_cases, if_neg (by omega), if_neg (by omega), if_neg (by omega),
          if_neg (by omega), if_pos h]
      exact ⟨100, hs, by decide, h,
        fun x hx hlx => by
          rcases mem_limit_range_cases x hx with rfl|rfl|rfl|rfl|rfl|rfl|rfl <;> omega,
        by simp [fetch_l2_order_book, hs]⟩
    rcases le_or_lt limit 500 with h | h500
    · have hs : snap limit = some 500 := by
        rw [snap_cases, if_neg (by omega), if_neg (by omega), if_neg (by omega),
          if_neg (by omega), if_neg (by omega), if_pos h]
      exact ⟨500, hs, by decide, h,
        fun x hx hlx => by
          rcases mem_limit_range_cases x hx with rfl|rfl|rfl|rfl|rfl|rfl|rfl <;> omega,
        by simp [fetch_l2_order_book, hs]⟩
    · have hs : snap limit = some 1000 := by
        rw [snap_cases, if_neg (by omega), if_neg (by omega), if_neg (by omega),
          if_neg (by omega), if_neg (by omega), if_neg (by omega), if_pos htop]
      exact ⟨1000, hs, by decide, htop,
        fun x hx hlx => by
          rcases mem_limit_range_cases x hx with rfl|rfl|rfl|rfl|rfl|rfl|rfl <;> omega,
        by simp [fetch_l2_order_book, hs]⟩
  · intro h
    have hs : snap limit = none := by
      rw [snap_cases, if_neg (by omega), if_neg (by omega), if_neg (by omega),
        if_neg (by omega), if_neg (by omega), if_neg (by omega), if_neg (by omega)]
    simp [fetch_l2_order_book, hs]

/-- Claim C1: for every positive stop price and limit-ratio in (0,1), if
the precision-normalized stop price is at most `stop_price` times the
ratio, the decorated `stoploss` entry point fails immediately with the
validation error (the spec's Validation kind: the locally raised
`OperationalException` with no ccxt cause), the only effect performed is
the stop-price normalization — so the limit price is never normalized
and the transport collaborator is never invoked — and the failure is not
a retryable kind. -/
theorem stoploss_validation_failure (env : Env) (pair : String)
    (amount stop_price : ℚ) (order_types : OrderTypes)
    (hpos : 0 < stop_price)
    (hr0 : 0 < limit_price_pct order_types)
    (hr1 : limit_price_pct order_types < 1)
    (hle : env.price_to_precision pair stop_price
        ≤ stop_price * limit_price_pct order_types) :
    stoploss_entry env pair amount stop_price order_types =
      { result := .error validationError,
        effects := [Effect.priceToPrecision pair stop_price] }
    ∧ kindOf validationError = FtKind.validation
    ∧ isRetryableError validationError = false := by
  refine ⟨?_, rfl, rfl⟩
  show retrierRun 0 _ = _
  simp only [retrierRun, stoploss]
  rw [if_pos hle]

/-- Claim C2: when dry-run mode is enabled and validation passes,
`stoploss` performs no transport call and returns the dry-run order with
the caller-supplied amount unmodified and the precision-normalized stop
price; the only effect is the stop-price normalization, so amount and
limit-price normalization are skipped on this path. -/
theorem stoploss_dry_run_path (env : Env) (pair : String)
    (amount stop_price : ℚ) (order_types : OrderTypes)
    (hdry : env.dry_run = true)
    (hval : stop_price * limit_price_pct order_types
        < env.price_to_precision pair stop_price) :
    stoploss env pair amount stop_price order_types =
      { result := .ok (.dry { pair := pair, ordertype := "stop_loss_limit",
                              side := "sell", amount := amount,
                              price := env.price_to_precision pair stop_price }),
        effects := [Effect.priceToPrecision pair stop_price] } := by
  simp only [stoploss, dry_run_order]
  rw [if_neg (not_le.mpr hval), if_pos hdry]

/-- Claim C8: the validation check runs before the dry-run branch, so
even in dry-run mode a request whose normalized stop price is at most
`stop_price * limit_price_pct` fails with the validation error and never
returns a dry-run order. -/
theorem stoploss_validation_precedes_dry_run (env : Env) (pair : String)
    (amount stop_price : ℚ) (order_types : OrderTypes)
    (hdry : env.dry_run = true)
    (hle : env.price_to_precision pair stop_price
        ≤ stop_price * limit_price_pct order_types) :
    stoploss env pair amount stop_price order_types =
      { result := .error validationError,
        effects := [Effect.priceToPrecision pair stop_price] }
    ∧ (∀ o : DryRunOrder,
        (stoploss env pair amount stop_price order_types).result
          ≠ .ok (.dry o)) := by
  have hs : stoploss env pair amount stop_price order_types =
      { result := .error validationError,
        effects := [Effect.priceToPrecision pair stop_price] } := by
    simp only [stoploss]
    rw [if_pos hle]
  exact ⟨hs, fun o => by rw [hs]; simp⟩

/-- Claim C3: every ccxt failure raised by the transport call inside
`stoploss` is re-raised as exactly one freqtrade error, classified by the
most-specific-first `except` chain; the resulting kind agrees with the
spec's five-kind table (`spec_error_kind`) for every ccxt error, and
every ccxt error is a `BaseError`, so none escapes unclassified and none
is swallowed. -/
theorem stoploss_transport_failure_classification (env : Env) (pair : String)
    (amount stop_price : ℚ) (order_types : OrderTypes) (e : CcxtError)
    (hdry : env.dry_run = false)
    (hval : stop_price * limit_price_pct order_types
        < env.price_to_precision pair stop_price)
    (hapi : env.create_order
        { symbol := pair, ordertype := "stop_loss_limit", side := "sell",
          amount := env.amount_to_precision pair amount,
          price := env.price_to_precision pair
            (stop_price * limit_price_pct order_types),
          stopPrice := env.price_to_precision pair stop_price,
          params := env.base_params } = .error e) :
    (stoploss env pair amount stop_price order_types).result
        = .error (classify_ccxt e)
    ∧ kindOf (classify_ccxt e) = spec_error_kind e
    ∧ is_base_error e = true := by
  refine ⟨?_, by cases e <;> rfl, by cases e <;> rfl⟩
  simp only [stoploss]
  rw [if_neg (not_le.mpr hval), hdry]
  simp only [if_false, Bool.false_eq_true, hapi]

/-- Claim C5: in live mode, when validation passes and the transport
accepts the order, `stoploss` normalizes the amount and the raw limit
price `stop_price * limit_price_pct`, submits a sell-side stop-limit
request whose trigger is the normalized stop price and whose resting
limit is the normalized limit price, returns the live order populated
from the exchange acknowledgment, and logs an event recording pair, stop
price and limit price. -/
theorem stoploss_live_success (env : Env) (pair : String)
    (amount stop_price : ℚ) (order_types : OrderTypes) (ack : OrderAck)
    (hdry : env.dry_run = false)
    (hval : stop_price * limit_price_pct order_types
        < env.price_to_precision pair stop_price)
    (hapi : env.create_order
        { symbol := pair, ordertype := "stop_loss_limit", side := "sell",
          amount := env.amount_to_precision pair amount,
          price := env.price_to_precision pair
            (stop_price * limit_price_pct order_types),
          stopPrice := env.price_to_precision pair stop_price,
          params := env.base_params } = .ok ack) :
    stoploss env pair amount stop_price order_types =
      { result := .ok (.live ack),
        effects := [Effect.priceToPrecision pair stop_price,
                    Effect.amountToPrecision pair amount,
                    Effect.priceToPrecision pair
                      (stop_price * limit_price_pct order_types),
                    Effect.createOrder
                      { symbol := pair, ordertype := "stop_loss_limit",
                        side := "sell",
                        amount := env.amount_to_precision pair amount,
                        price := env.price_to_precision pair
                          (stop_price * limit_price_pct order_types),
                        stopPrice := env.price_to_precision pair stop_price,
                        params := env.base_params },
                    Effect.logInfo pair (env.price_to_precision pair stop_price)
                      (env.price_to_precision pair
                        (stop_price * limit_price_pct order_types))] } := by
  simp only [stoploss]
  rw [if_neg (not_le.mpr hval), hdry]
  simp only [if_false, Bool.false_eq_true, hapi]
  rfl

/-- Claim C4: the stop-loss call site disables the generic retry wrapper
(`retries=0`), so the decorated entry point equals a single plain call
and at most one order-placement request is issued to the transport per
invocation, for every environment and input, including failing transport
calls. -/
theorem stoploss_at_most_one_transport_call (env : Env) (pair : String)
    (amount stop_price : ℚ) (order_types : OrderTypes) :
    stoploss_entry env pair amount stop_price order_types
        = stoploss env pair amount stop_price order_types
    ∧ ((stoploss_entry env pair amount stop_price order_types).effects.filter
        isCreateOrderEffect).length ≤ 1 := by
  refine ⟨rfl, ?_⟩
  show ((retrierRun 0 _).effects.filter isCreateOrderEffect).length ≤ 1
  simp only [retrierRun, stoploss]
  split
  · simp [isCreateOrderEffect]
  · split
    · simp [isCreateOrderEffect]
    · split <;> simp [isCreateOrderEffect]

/-- Claim C7: when the caller supplies no limit-ratio in the order-type
options, `stoploss` uses the default 0.99 — a call with the key absent
behaves identically to a call with 99/100 supplied — and when a value is
supplied, that value is used for the raw limit price. -/
theorem stoploss_limit_pct_default (env : Env) (pair : String)
    (amount stop_price r : ℚ) :
    limit_price_pct { stoploss_on_exchange_limit_pct := none } = 99 / 100
    ∧ limit_price_pct { stoploss_on_exchange_limit_pct := some r } = r
    ∧ stoploss env pair amount stop_price
        { stoploss_on_exchange_limit_pct := none }
      = stoploss env pair amount stop_price
        { stoploss_on_exchange_limit_pct := some (99 / 100) } :=
  ⟨rfl, rfl, rfl⟩

/-- Claim C9: `stoploss_adjust` returns true exactly when the existing
order's type is `stop_loss_limit` and the requested stop-loss value is
strictly greater than the order's recorded stop price; in particular it
is false for every order of any other type, regardless of prices. -/
theorem stoploss_adjust_iff (stop_loss : ℚ) (order : CcxtOrder) :
    stoploss_adjust stop_loss order = true ↔
      order.type = "stop_loss_limit" ∧ order.info_stopPrice < stop_loss := by
  simp [stoploss_adjust, gt_iff_lt]

/-- Claim C6: for every exchange-library failure during
`query_max_borrow` and the other margin/account pass-through operations,
the operation returns an absent result together with exactly one warning
event, and — being a total function into that pair type — never raises
an error to the caller. -/
theorem margin_ops_swallow_transport_failures {α β γ δ : Type}
    (api1 : MaxBorrowReq → Except CcxtError α)
    (api2 : Unit → Except CcxtError β)
    (api3 : MarginCreateReq → Except CcxtError γ)
    (api4 : MarginTransferReq → Except CcxtError δ)
    (asset isolatedSymbol base quote symbol transFrom transTo : String)
    (amount : ℚ) (e1 e2 e3 e4 : CcxtError)
    (h1 : api1 { asset := asset, isolatedSymbol := isolatedSymbol } = .error e1)
    (h2 : api2 () = .error e2)
    (h3 : api3 { base := base, quote := quote } = .error e3)
    (h4 : api4 { asset := asset, symbol := symbol, transFrom := transFrom,
                 transTo := transTo, amount := amount } = .error e4) :
    query_max_borrow api1 asset isolatedSymbol = (none, [Effect.logWarning e1])
    ∧ get_isolated_margin_account api2 = (none, [Effect.logWarning e2])
    ∧ create_isolated_margin_account api3 base quote
        = (none, [Effect.logWarning e3])
    ∧ isolated_margin_transfer api4 asset symbol transFrom transTo amount
        = (none, [Effect.logWarning e4]) := by
  refine ⟨?_, ?_, ?_, ?_⟩
  · simp only [query_max_borrow, h1]
  · simp only [get_isolated_margin_account, h2]
  · simp only [create_isolated_margin_account, h3]
  · simp only [isolated_margin_transfer, h4]

def wEnvVal : Env :=
  { price_to_precision := fun _ p => p * (9 / 10),
    amount_to_precision := fun _ a => a,
    dry_run := false,
    base_params := [],
    create_order := fun _ => .error .baseError }

def wEnvDry : Env :=
  { price_to_precision := fun _ p => p,
    amount_to_precision := fun _ a => a,
    dry_run := true,
    base_params := [],
    create_order := fun _ => .error .baseError }

def wEnvDryVal : Env :=
  { price_to_precision := fun _ p => p * (9 / 10),
    amount_to_precision := fun _ a => a,
    dry_run := true,
    base_params := [],
    create_order := fun _ => .error .baseError }

def wEnvLive : Env :=
  { price_to_precision := fun _ p => p,
    amount_to_precision := fun _ a => a,
    dry_run := false,
    base_params := [("timeInForce", "GTC")],
    create_order := fun _ => .ok { orderId := "12345" } }

def wEnvFail : Env :=
  { price_to_precision := fun _ p => p,
    amount_to_precision := fun _ a => a,
    dry_run := false,
    base_params := [],
    create_order := fun _ => .error .insufficientFunds }

theorem stoploss_validation_failure_witness :
    (0 < (100:ℚ))
    ∧ 0 < limit_price_pct { stoploss_on_exchange_limit_pct := none }
    ∧ limit_price_pct { stoploss_on_exchange_limit_pct := none } < 1
    ∧ wEnvVal.price_to_precision "BTC/USDT" 100
        ≤ 100 * limit_price_pct { stoploss_on_exchange_limit_pct := none }
    ∧ (stoploss_entry wEnvVal "BTC/USDT" 1 100
          { stoploss_on_exchange_limit_pct := none } =
        { result := .error validationError,
          effects := [Effect.priceToPrecision "BTC/USDT" 100] }
      ∧ kindOf validationError = FtKind.validation
      ∧ isRetryableError validationError = false) :=
  ⟨by norm_num, by norm_num [limit_price_pct], by norm_num [limit_price_pct],
   by norm_num [wEnvVal, limit_price_pct],
   stoploss_validation_failure wEnvVal "BTC/USDT" 1 100
     { stoploss_on_exchange_limit_pct := none } (by norm_num)
     (by norm_num [limit_price_pct]) (by norm_num [limit_price_pct])
     (by norm_num [wEnvVal, limit_price_pct])⟩

theorem stoploss_dry_run_path_witness :
    wEnvDry.dry_run = true
    ∧ 100 * limit_price_pct { stoploss_on_exchange_limit_pct := none }
        < wEnvDry.price_to_precision "BTC/USDT" 100
    ∧ stoploss wEnvDry "BTC/USDT" 1 100
        { stoploss_on_exchange_limit_pct := none } =
      { result := .ok (.dry { pair := "BTC/USDT", ordertype := "stop_loss_limit",
                              side := "sell", amount := 1,
                              price := wEnvDry.price_to_precision "BTC/USDT" 100 }),
        effects := [Effect.priceToPrecision "BTC/USDT" 100] } :=
  ⟨rfl, by norm_num [wEnvDry, limit_price_pct],
   stoploss_dry_run_path wEnvDry "BTC/USDT" 1 100
     { stoploss_on_exchange_limit_pct := none } rfl
     (by norm_num [wEnvDry, limit_price_pct])⟩

theorem stoploss_validation_precedes_dry_run_witness :
    wEnvDryVal.dry_run = true
    ∧ wEnvDryVal.price_to_precision "BTC/USDT" 100
        ≤ 100 * limit_price_pct { stoploss_on_exchange_limit_pct := none }
    ∧ stoploss wEnvDryVal "BTC/USDT" 1 100
        { stoploss_on_exchange_limit_pct := none } =
      { result := .error validationError,
        effects := [Effect.priceToPrecision "BTC/USDT" 100] }
    ∧ (stoploss wEnvDryVal "BTC/USDT" 1 100
        { stoploss_on_exchange_limit_pct := none }).result
        ≠ .ok (.dry (dry_run_order "BTC/USDT" "stop_loss_limit" "sell" 1 90)) :=
  ⟨rfl, by norm_num [wEnvDryVal, limit_price_pct],
   (stoploss_validation_precedes_dry_run wEnvDryVal "BTC/USDT" 1 100
     { stoploss_on_exchange_limit_pct := none } rfl
     (by norm_num [wEnvDryVal, limit_price_pct])).1,
   (stoploss_validation_precedes_dry_run wEnvDryVal "BTC/USDT" 1 100
     { stoploss_on_exchange_limit_pct := none } rfl
     (by norm_num [wEnvDryVal, limit_price_pct])).2
     (dry_run_order "BTC/USDT" "stop_loss_limit" "sell" 1 90)⟩

theorem stoploss_transport_failure_classification_witness :
    wEnvFail.dry_run = false
    ∧ 100 * limit_price_pct { stoploss_on_exchange_limit_pct := none }
        < wEnvFail.price_to_precision "BTC/USDT" 100
    ∧ wEnvFail.create_order
        { symbol := "BTC/USDT", ordertype := "stop_loss_limit", side := "sell",
          amount := wEnvFail.amount_to_precision "BTC/USDT" 1,
          price := wEnvFail.price_to_precision "BTC/USDT"
            (100 * limit_price_pct { stoploss_on_exchange_limit_pct := none }),
          stopPrice := wEnvFail.price_to_precision "BTC/USDT" 100,
          params := wEnvFail.base_params } = .error .insufficientFunds
    ∧ ((stoploss wEnvFail "BTC/USDT" 1 100
          { stoploss_on_exchange_limit_pct := none }).result
        = .error (classify_ccxt .insufficientFunds)
      ∧ kindOf (classify_ccxt .insufficientFunds)
          = spec_error_kind .insufficientFunds
      ∧ is_base_error .insufficientFunds = true) :=
  ⟨rfl, by norm_num [wEnvFail, limit_price_pct], rfl,
   stoploss_transport_failure_classification wEnvFail "BTC/USDT" 1 100
     { stoploss_on_exchange_limit_pct := none } .insufficientFunds rfl
     (by norm_num [wEnvFail, limit_price_pct]) rfl⟩

theorem stoploss_live_success_witness :
    wEnvLive.dry_run = false
    ∧ 100 * limit_price_pct { stoploss_on_exchange_limit_pct := none }
        < wEnvLive.price_to_precision "BTC/USDT" 100
    ∧ wEnvLive.create_order
        { symbol := "BTC/USDT", ordertype := "stop_loss_limit", side := "sell",
          amount := wEnvLive.amount_to_precision "BTC/USDT" 1,
          price := wEnvLive.price_to_precision "BTC/USDT"
            (100 * limit_price_pct { stoploss_on_exchange_limit_pct := none }),
          stopPrice := wEnvLive.price_to_precision "BTC/USDT" 100,
          params := wEnvLive.base_params } = .ok { orderId := "12345" }
    ∧ stoploss wEnvLive "BTC/USDT" 1 100
        { stoploss_on_exchange_limit_pct := none } =
      { result := .ok (.live { orderId := "12345" }),
        effects := [Effect.priceToPrecision "BTC/USDT" 100,
                    Effect.amountToPrecision "BTC/USDT" 1,
                    Effect.priceToPrecision "BTC/USDT"
                      (100 * limit_price_pct { stoploss_on_exchange_limit_pct := none }),
                    Effect.createOrder
                      { symbol := "BTC/USDT", ordertype := "stop_loss_limit",
                        side := "sell",
                        amount := wEnvLive.amount_to_precision "BTC/USDT" 1,
                        price := wEnvLive.price_to_precision "BTC/USDT"
                          (100 * limit_price_pct { stoploss_on_exchange_limit_pct := none }),
                        stopPrice := wEnvLive.price_to_precision "BTC/USDT" 100,
                        params := wEnvLive.base_params },
                    Effect.logInfo "BTC/USDT"
                      (wEnvLive.price_to_precision "BTC/USDT" 100)
                      (wEnvLive.price_to_precision "BTC/USDT"
                        (100 * limit_price_pct { stoploss_on_exchange_limit_pct := none }))] } :=
  ⟨rfl, by norm_num [wEnvLive, limit_price_pct], rfl,
   stoploss_live_success wEnvLive "BTC/USDT" 1 100
     { stoploss_on_exchange_limit_pct := none } { orderId := "12345" } rfl
     (by norm_num [wEnvLive, limit_price_pct]) rfl⟩

def wMaxBorrowApi : MaxBorrowReq → Except CcxtError Unit :=
  fun _ => .error .networkError

def wMarginAcctApi : Unit → Except CcxtError Unit :=
  fun _ => .error .exchangeError

def wMarginCreateApi : MarginCreateReq → Except CcxtError Unit :=
  fun _ => .error .ddosProtection

def wMarginTransferApi : MarginTransferReq → Except CcxtError Unit :=
  fun _ => .error .baseError

theorem margin_ops_swallow_transport_failures_witness :
    wMaxBorrowApi { asset := "BTC", isolatedSymbol := "BTCUSDT" }
        = .error .networkError
    ∧ wMarginAcctApi () = .error .exchangeError
    ∧ wMarginCreateApi { base := "BTC", quote := "USDT" }
        = .error .ddosProtection
    ∧ wMarginTransferApi { asset := "BTC", symbol := "BTCUSDT",
                           transFrom := "SPOT", transTo := "ISOLATED_MARGIN",
                           amount := 1 }
        = .error .baseError
    ∧ (query_max_borrow wMaxBorrowApi "BTC" "BTCUSDT"
          = (none, [Effect.logWarning .networkError])
      ∧ get_isolated_margin_account wMarginAcctApi
          = (none, [Effect.logWarning .exchangeError])
      ∧ create_isolated_margin_account wMarginCreateApi "BTC" "USDT"
          = (none, [Effect.logWarning .ddosProtection])
      ∧ isolated_margin_transfer wMarginTransferApi "BTC" "BTCUSDT" "SPOT"
          "ISOLATED_MARGIN" 1 = (none, [Effect.logWarning .baseError])) :=
  ⟨rfl, rfl, rfl, rfl,
   margin_ops_swallow_transport_failures wMaxBorrowApi wMarginAcctApi
     wMarginCreateApi wMarginTransferApi "BTC" "BTCUSDT" "BTC" "USDT" "BTCUSDT"
     "SPOT" "ISOLATED_MARGIN" 1 .networkError .exchangeError .ddosProtection
     .baseError rfl rfl rfl rfl⟩

def wSuperFetch : String → ℤ → ℤ := fun _ l => l

theorem fetch_l2_order_book_snaps_limit_witness :
    ((1000:ℤ) < 1001
      ∧ fetch_l2_order_book wSuperFetch "BTC/USDT" 1001 =
          { result := .error .valueError, superCalls := [] }) :=
  ⟨by decide,
   (fetch_l2_order_book_snaps_limit wSuperFetch "BTC/USDT" 1001).2 (by decide)⟩
